import Mathlib

/-!
Verification development for the py-image-compress-mcp compression core.

This file gives a shallow embedding of the decision-and-execution engine
(src/py_image_compress_mcp/core/compression_engine.py, strategy.py,
formats.py, image_info.py and the models they depend on) and proves
properties of it.  Machine floats of the source are modelled as exact
rationals; at the constants used here (1.005, 1.02, 1.5, 0.2, 0.1, 0.05,
0.3, 0.5) the double-precision comparisons of the source agree with the
rational ones away from exact-boundary inputs, and all concrete inputs in
the theorems below are far from those boundaries.  File-system effects are
made explicit: the size of the file found at a path is threaded as an
explicit value, and the external codec's encode step is a parameter that
either reports the number of bytes written or fails, possibly leaving
bytes behind.
-/

/-- File paths, reduced to the three components the engine manipulates:
directory, stem and extension (pathlib's stem / suffix split). -/
structure FsPath where
  dir : String
  stem : String
  ext : String
deriving DecidableEq

/-- pathlib Path.with_suffix: replace the extension. -/
def FsPath.with_suffix (p : FsPath) (s : String) : FsPath :=
  { p with ext := s }

/-- str.lower of the source, for the ASCII strings the engine compares
(format names and file extensions). -/
def lower_string (s : String) : String :=
  String.mk (s.data.map Char.toLower)

/-- str.upper of the source, for the ASCII strings the engine compares. -/
def upper_string (s : String) : String :=
  String.mk (s.data.map Char.toUpper)

/-- models/compression_config.py QualityMode. -/
inductive QualityMode where
  | lossless
  | custom
deriving DecidableEq

/-- models/compression_config.py StrategyType. -/
inductive StrategyType where
  | lossless
  | lossy
  | adaptive
  | skip
deriving DecidableEq

/-- models/compression_config.py CompressionConfig (resize_config is not
modelled; no claim touches the resize path). -/
structure CompressionConfig where
  input_path : FsPath
  output_path : Option FsPath := none
  output_dir : Option String := none
  quality_mode : QualityMode := QualityMode.lossless
  custom_quality : Option Nat := none
  target_format : Option String := none
  preserve_format : Bool := true
  optimize : Bool := true
  progressive : Bool := true
  strip_metadata : Bool := false
  fallback_to_original : Bool := false
deriving DecidableEq

/-- CompressionConfig.effective_quality. -/
def CompressionConfig.effective_quality (c : CompressionConfig) : Option Nat :=
  match c.quality_mode with
  | QualityMode.lossless => none
  | QualityMode.custom => c.custom_quality

/-- CompressionConfig._get_quality_suffix. -/
def CompressionConfig.quality_suffix (c : CompressionConfig) : String :=
  if c.quality_mode ≠ QualityMode.lossless then
    match c.effective_quality with
    | some q => "_compress_" ++ toString q
    | none => "_compress"
  else "_compress"

/-- CompressionConfig._get_format_extension.  The preferred-extension table
of the source is modelled; for formats outside it the source consults the
external Pillow registry and finally falls back to .jpg, which is the
branch modelled here (no claim uses a format outside the table). -/
def format_extension (name : String) : String :=
  let u := upper_string name
  if u = "JPEG" then ".jpg"
  else if u = "PNG" then ".png"
  else if u = "WEBP" then ".webp"
  else if u = "GIF" then ".gif"
  else if u = "BMP" then ".bmp"
  else if u = "TIFF" then ".tiff"
  else if u = "ICO" then ".ico"
  else ".jpg"

/-- CompressionConfig._generate_auto_path. -/
def CompressionConfig.generate_auto_path (c : CompressionConfig) (original : FsPath)
    (format_override : Option String) (skip_suffix : Bool) : FsPath :=
  let out_dir := c.output_dir.getD original.dir
  let base := if skip_suffix then original.stem else original.stem ++ c.quality_suffix
  let e :=
    match format_override with
    | some f => format_extension f
    | none =>
      match c.target_format with
      | some f => format_extension f
      | none => original.ext
  { dir := out_dir, stem := base, ext := e }

/-- CompressionConfig.get_output_path. -/
def CompressionConfig.get_output_path (c : CompressionConfig) (original : FsPath)
    (format_override : Option String) (skip_suffix : Bool) : FsPath :=
  match c.output_path with
  | some p => p
  | none => c.generate_auto_path original format_override skip_suffix

/-- models/image_metadata.py BasicImageInfo (the fields the engine reads). -/
structure BasicImageInfo where
  file_size : Nat
  format : String
  mode : String
  width : Nat
  height : Nat
  has_transparency : Bool
  frame_count : Nat := 1
deriving DecidableEq

/-- models/image_metadata.py ComplexityMetrics. -/
structure ComplexityMetrics where
  edge_density : ℚ
  color_diversity : ℚ
  texture_complexity : ℚ
  compression_difficulty : ℚ
deriving DecidableEq

/-- ComplexityMetrics.overall_complexity: mean of the three components
against the cut points 0.8 / 0.6 / 0.4 / 0.2. -/
def ComplexityMetrics.overall_complexity (m : ComplexityMetrics) : String :=
  let avg := (m.edge_density + m.color_diversity + m.texture_complexity) / 3
  if avg ≥ 4/5 then "very_high"
  else if avg ≥ 3/5 then "high"
  else if avg ≥ 2/5 then "medium"
  else if avg ≥ 1/5 then "low"
  else "very_low"

/-- models/image_metadata.py HistogramData (luminance channel only; the
red/green/blue channels are never read by the classifier). -/
structure HistogramData where
  luminance_histogram : List Nat
deriving DecidableEq

/-- HistogramData.brightness_stats, restricted to the mid_ratio entry the
classifier reads: mid-tone pixels are histogram buckets 85..169.  The
source returns an empty dict when the histogram is empty or all-zero; that
case is modelled by `brightness_mid_available`. -/
def HistogramData.brightness_mid_available (h : HistogramData) : Bool :=
  decide (h.luminance_histogram ≠ []) && decide (h.luminance_histogram.sum ≠ 0)

/-- The mid_ratio value of HistogramData.brightness_stats. -/
def HistogramData.brightness_mid_value (h : HistogramData) : ℚ :=
  ((h.luminance_histogram.drop 85).take 85).sum / (h.luminance_histogram.sum : ℚ)

/-- models/image_metadata.py ImageMetadata (exif / icc / xmp records are
never read by the compression decision logic and are not modelled). -/
structure ImageMetadata where
  basic_info : BasicImageInfo
  histogram : Option HistogramData := none
  complexity : Option ComplexityMetrics := none
deriving DecidableEq

/-- models/image_metadata.py ImageCharacteristics. -/
structure ImageCharacteristics where
  is_simple_graphic : Bool
  is_photo_like : Bool
  color_count : Nat
  complexity_score : ℚ
  has_transparency : Bool
deriving DecidableEq

/-- core/image_info.py analyze_image_from_metadata. -/
def analyze_image_from_metadata (metadata : ImageMetadata) : ImageCharacteristics :=
  let base : Bool × Bool × ℚ :=
    match metadata.complexity with
    | none => (false, false, 0)
    | some c =>
      let simple0 := c.overall_complexity = "simple"
      let photo0 := c.overall_complexity = "moderate" ∨ c.overall_complexity = "complex"
      if c.color_diversity < 1/10 then
        (true, decide photo0, c.texture_complexity)
      else if c.color_diversity > 1/2 then
        (decide simple0, true, c.texture_complexity)
      else
        (decide simple0, decide photo0, c.texture_complexity)
  let photo :=
    match metadata.histogram with
    | none => base.2.1
    | some h =>
      if h.brightness_mid_available && decide (h.brightness_mid_value > 3/10) then
        true
      else base.2.1
  { is_simple_graphic := base.1
    is_photo_like := photo
    color_count := 0
    complexity_score := base.2.2
    has_transparency := metadata.basic_info.has_transparency }

/-- models/compression_config.py CompressionDecision. -/
structure CompressionDecision where
  strategy_type : StrategyType
  recommended_quality : Option Nat := none
  recommended_format : Option String := none
  reason : String := ""
  skip_compression : Bool := false
deriving DecidableEq

/-- config.py CompressionDefaults.JPEG_QUALITY. -/
def default_jpeg_quality : Nat := 85

/-- config.py CompressionDefaults.WEBP_QUALITY. -/
def default_webp_quality : Nat := 75

/-- core/strategy.py CompressionStrategy constructor state: prefer_quality
and size_threshold_mb (complexity_threshold is stored but never read by
the decision logic). -/
structure CompressionStrategy where
  prefer_quality : Bool
  size_threshold_mb : ℚ
deriving DecidableEq

/-- The strategy built with the config.py defaults
(PREFER_QUALITY = True, SIZE_THRESHOLD_MB = 5.0), as process_image does. -/
def default_strategy : CompressionStrategy :=
  { prefer_quality := true, size_threshold_mb := 5 }

/-- CompressionStrategy._should_skip_compression.  The source computes
bytes_per_pixel as file_size / pixel_count when pixel_count > 0 and 0
otherwise; rational division by zero is 0, which coincides. -/
def should_skip_compression (metadata : ImageMetadata) : Bool :=
  let basic := metadata.basic_info
  if basic.file_size < 5 * 1024 then true
  else if (basic.format = "WEBP" ∨ basic.format = "JPEG") ∧ basic.file_size < 50 * 1024 then
    true
  else if basic.format = "PNG" ∧ basic.file_size < 100 * 1024 then
    let pixel_count := basic.width * basic.height
    let bytes_per_pixel : ℚ := (basic.file_size : ℚ) / (pixel_count : ℚ)
    decide (bytes_per_pixel < 3/2)
  else false

/-- CompressionStrategy._try_original_format_optimization. -/
def try_original_format_optimization (metadata : ImageMetadata) :
    Option CompressionDecision :=
  let basic := metadata.basic_info
  let file_size_mb : ℚ := (basic.file_size : ℚ) / (1024 * 1024)
  if basic.format = "JPEG" then
    some { strategy_type := StrategyType.lossless
           recommended_format := some "JPEG"
           recommended_quality := none
           reason := "JPEG 无损优化，使用 optimize 参数减小文件大小" }
  else if basic.format = "PNG" then
    if file_size_mb < 1/5 then
      some { strategy_type := StrategyType.lossless
             recommended_format := some "PNG"
             recommended_quality := none
             reason := "PNG 小文件无损优化，保持原格式" }
    else
      some { strategy_type := StrategyType.lossless
             recommended_format := some "PNG"
             recommended_quality := none
             reason := "PNG 无损优化，使用最佳压缩参数" }
  else if basic.format = "WEBP" then
    if file_size_mb < 1/5 then
      some { strategy_type := StrategyType.lossless
             recommended_format := some "WEBP"
             recommended_quality := none
             reason := "WebP 小文件无损优化" }
    else
      some { strategy_type := StrategyType.lossy
             recommended_format := some "WEBP"
             recommended_quality := some 85
             reason := "WebP 高质量压缩" }
  else none

/-- CompressionStrategy._estimate_color_count (the body never raises on
this data, so the broad except-default-1024 of the source is dead). -/
def estimate_color_count (metadata : ImageMetadata) : Nat :=
  let basic := metadata.basic_info
  let pixel_count := basic.width * basic.height
  match metadata.complexity with
  | some c =>
    if c.overall_complexity = "very_low" ∨ c.overall_complexity = "simple" then
      min 256 (max 16 (pixel_count / 1000))
    else if c.overall_complexity = "complex" then
      min 65536 (pixel_count / 10)
    else min 4096 (pixel_count / 100)
  | none => min 4096 (pixel_count / 100)

/-- CompressionStrategy._handle_simple_graphic. -/
def handle_simple_graphic (metadata : ImageMetadata) : CompressionDecision :=
  let basic := metadata.basic_info
  let color_count := estimate_color_count metadata
  let file_size_mb : ℚ := (basic.file_size : ℚ) / (1024 * 1024)
  if basic.format = "JPEG" ∧ file_size_mb > 1/10 then
    { strategy_type := StrategyType.lossy
      recommended_format := some "JPEG"
      recommended_quality := some 75
      reason := "JPEG图片使用适中质量压缩，保持格式一致性" }
  else if color_count ≤ 64 ∧ file_size_mb < 1/20 then
    { strategy_type := StrategyType.lossless
      recommended_format := some "PNG"
      recommended_quality := none
      reason := "极简单小图形，PNG无损压缩效果最佳" }
  else
    { strategy_type := StrategyType.lossy
      recommended_format := some "WEBP"
      recommended_quality := some 80
      reason := "简单图形，使用WebP适中质量压缩" }

/-- The decision-factor record built by CompressionStrategy._analyze_and_decide. -/
structure DecisionFactors where
  large_file : Bool
  high_complexity : Bool
  has_transparency : Bool
  is_photo : Bool
  is_simple_graphic : Bool
deriving DecidableEq

/-- The factors dict of CompressionStrategy._analyze_and_decide. -/
def decision_factors (s : CompressionStrategy) (metadata : ImageMetadata) :
    DecisionFactors :=
  let basic := metadata.basic_info
  let file_size_mb : ℚ := (basic.file_size : ℚ) / (1024 * 1024)
  { large_file := decide (file_size_mb > s.size_threshold_mb)
    high_complexity :=
      match metadata.complexity with
      | some c => decide (c.overall_complexity = "complex")
      | none => false
    has_transparency := basic.has_transparency
    is_photo := (analyze_image_from_metadata metadata).is_photo_like
    is_simple_graphic := (analyze_image_from_metadata metadata).is_simple_graphic }

/-- CompressionStrategy._make_decision: the ordered match over the
(has_transparency, is_simple_graphic, is_photo, large_file,
high_complexity) tuple. -/
def make_decision (s : CompressionStrategy) (f : DecisionFactors)
    (metadata : ImageMetadata) : CompressionDecision :=
  if should_skip_compression metadata then
    { strategy_type := StrategyType.skip
      recommended_quality := none
      recommended_format := none
      skip_compression := true
      reason := "文件已经很小或已经高度压缩" }
  else
    match f.has_transparency, f.is_simple_graphic, f.is_photo, f.large_file,
        f.high_complexity with
    | true, _, _, true, _ =>
      { strategy_type := StrategyType.lossy
        recommended_format := some "WEBP"
        recommended_quality := some 90
        reason := "大文件透明图片，使用WebP有损压缩平衡质量和大小" }
    | true, _, _, false, _ =>
      { strategy_type := StrategyType.lossless
        recommended_format := some "PNG"
        recommended_quality := none
        reason := "透明图片，使用PNG无损压缩保持质量" }
    | false, true, _, _, _ => handle_simple_graphic metadata
    | false, false, true, true, _ =>
      { strategy_type := StrategyType.lossy
        recommended_quality := some (if s.prefer_quality then default_jpeg_quality else 75)
        recommended_format := some "JPEG"
        reason := "照片类图片，文件大或复杂，使用JPEG有损压缩" }
    | false, false, true, false, true =>
      { strategy_type := StrategyType.lossy
        recommended_quality := some (if s.prefer_quality then default_jpeg_quality else 75)
        recommended_format := some "JPEG"
        reason := "照片类图片，文件大或复杂，使用JPEG有损压缩" }
    | false, false, true, false, false =>
      { strategy_type := StrategyType.lossless
        recommended_format := some "WEBP"
        recommended_quality := none
        reason := "小尺寸照片，尝试WebP无损压缩" }
    | false, false, false, true, _ =>
      { strategy_type := StrategyType.lossy
        recommended_quality := some default_webp_quality
        recommended_format := some "WEBP"
        reason := "大文件，使用WebP有损压缩平衡质量和大小" }
    | false, false, false, false, _ =>
      { strategy_type := StrategyType.lossless
        recommended_format := some "WEBP"
        recommended_quality := none
        reason := "中小文件，使用WebP无损压缩" }

/-- CompressionStrategy._analyze_and_decide. -/
def analyze_and_decide (s : CompressionStrategy) (metadata : ImageMetadata) :
    CompressionDecision :=
  if should_skip_compression metadata then
    { strategy_type := StrategyType.skip
      recommended_format := some metadata.basic_info.format
      recommended_quality := none
      skip_compression := true
      reason := "文件已经高度优化，跳过压缩避免负优化" }
  else
    match try_original_format_optimization metadata with
    | some d => d
    | none => make_decision s (decision_factors s metadata) metadata

/-- CompressionStrategy._suggest_format. -/
def suggest_format (s : CompressionStrategy) (metadata : ImageMetadata)
    (user_preference : Option String) : String :=
  match user_preference with
  | some p => upper_string p
  | none =>
    let ch := analyze_image_from_metadata metadata
    match metadata.basic_info.has_transparency, ch.is_photo_like,
        ch.is_simple_graphic, s.prefer_quality with
    | true, _, _, _ => if s.prefer_quality then "WEBP" else "PNG"
    | false, true, _, true => "WEBP"
    | false, true, _, false => "JPEG"
    | false, false, true, _ => "PNG"
    | false, false, false, _ => "WEBP"

/-- CompressionStrategy._apply_user_config. -/
def apply_user_config (s : CompressionStrategy) (cfg : CompressionConfig)
    (metadata : ImageMetadata) : CompressionDecision :=
  let quality := cfg.effective_quality
  let format_hint := suggest_format s metadata cfg.target_format
  { strategy_type :=
      if quality = none then StrategyType.lossless else StrategyType.lossy
    recommended_quality := quality
    recommended_format := some format_hint
    reason := "用户指定配置" }

/-- CompressionStrategy.select_optimal. -/
def select_optimal (s : CompressionStrategy) (metadata : ImageMetadata)
    (cfg : Option CompressionConfig) : CompressionDecision :=
  match cfg with
  | some c =>
    if c.quality_mode ≠ QualityMode.lossless then apply_user_config s c metadata
    else analyze_and_decide s metadata
  | none => analyze_and_decide s metadata

/-- core/formats.py get_jpeg_params return shape: either the
skip-processing sentinel (the dict containing only skip_processing=True)
or a parameter record for the encoder. -/
inductive JpegSaveParams where
  | skipProcessing
  | encode (quality : Nat) (optimize : Bool) (progressive : Bool)
      (subsampling : Option Nat) (strip_metadata : Bool)
deriving DecidableEq

/-- core/formats.py get_jpeg_params.  Returns the parameter record and the
actual quality value reported to the caller.  subsampling = none models the
source leaving the key unset (the JPEG-input lossless path). -/
def get_jpeg_params (quality : Option Nat) (config : CompressionConfig) :
    JpegSaveParams × Option Nat :=
  let e := lower_string config.input_path.ext
  match quality with
  | none =>
    if e = ".jpg" ∨ e = ".jpeg" then (JpegSaveParams.skipProcessing, none)
    else
      let jpeg_quality := if e = ".webp" ∨ e = ".avif" ∨ e = ".heif" then 75 else 85
      (JpegSaveParams.encode jpeg_quality config.optimize false
        (if jpeg_quality ≥ 85 then some 1 else some 2) config.strip_metadata,
       some jpeg_quality)
  | some q =>
    let clamped := max 1 (min 100 q)
    let jpeg_quality := if clamped = 100 then 98 else clamped
    (JpegSaveParams.encode jpeg_quality config.optimize config.progressive
      (if jpeg_quality ≥ 85 then some 1 else some 2) config.strip_metadata,
     some jpeg_quality)

/-- core/compression_engine.py: whether get_save_parameters signals
skip_processing for the chosen target format (only the JPEG builder ever
sets the sentinel). -/
def save_params_skip (target_format : String) (config : CompressionConfig) : Bool :=
  decide (target_format = "JPEG") &&
    decide ((get_jpeg_params config.effective_quality config).1 =
      JpegSaveParams.skipProcessing)

/-- The actual_quality value of core/formats.py get_save_parameters: the
JPEG builder may override it, every other format reports the configured
effective quality. -/
def save_params_quality (target_format : String) (config : CompressionConfig) :
    Option Nat :=
  if target_format = "JPEG" then (get_jpeg_params config.effective_quality config).2
  else config.effective_quality

/-- models/compression_result.py CompressionResult. -/
structure CompressionResult where
  success : Bool
  error : Option String
  input_path : FsPath
  output_path : FsPath
  original_size : Nat
  compressed_size : Nat
  format_used : String
  quality_used : Option Nat
  was_resized : Bool
  original_dimensions : Option (Nat × Nat)
  final_dimensions : Option (Nat × Nat)
deriving DecidableEq

/-- models/compression_result.py BaseResult.is_successful. -/
def CompressionResult.is_successful (r : CompressionResult) : Bool :=
  r.success && r.error.isNone

/-- exceptions.py ErrorHandler._create_error_result (the original_size
computed from the file stat is passed in explicitly). -/
def create_error_result (input_path : FsPath) (error_msg : String)
    (output_path : Option FsPath) (original_size : Nat) : CompressionResult :=
  { success := false
    error := some error_msg
    input_path := input_path
    output_path := output_path.getD (input_path.with_suffix ".compressed")
    original_size := original_size
    compressed_size := 0
    format_used := "UNKNOWN"
    quality_used := none
    was_resized := false
    original_dimensions := none
    final_dimensions := none }

/-- compression_engine.py _apply_strategy_decision. -/
def apply_strategy_decision (config : CompressionConfig)
    (decision : CompressionDecision) : CompressionConfig :=
  let c1 :=
    match decision.recommended_format with
    | some f => { config with target_format := some f }
    | none => config
  match decision.recommended_quality with
  | some q => { c1 with custom_quality := some q, quality_mode := QualityMode.custom }
  | none => c1

/-- compression_engine.py _create_skip_result (input_size is the stat size
of the input file, which the engine re-reads there). -/
def create_skip_result (config : CompressionConfig) (reason : String)
    (input_size : Nat) : CompressionResult :=
  { success := true
    error := some ("跳过压缩: " ++ reason)
    input_path := config.input_path
    output_path := config.get_output_path config.input_path none false
    original_size := input_size
    compressed_size := input_size
    format_used := "SKIPPED"
    quality_used := none
    was_resized := false
    original_dimensions := none
    final_dimensions := none }

/-- The fallback threshold of compression_engine.py _post_process_result:
1.005 when custom_quality is unset, 1.02 otherwise. -/
def fallback_threshold (config : CompressionConfig) : ℚ :=
  if config.custom_quality = none then 1005/1000 else 102/100

/-- The should_use_original_name condition of _post_process_result. -/
def should_use_original_name (config : CompressionConfig)
    (original_size compressed_size : Nat) : Bool :=
  let ratio_val : ℚ :=
    if original_size > 0 then
      ((original_size : ℚ) - (compressed_size : ℚ)) / (original_size : ℚ)
    else 0
  decide (config.quality_mode = QualityMode.lossless) && decide (ratio_val < 1/20) &&
    decide (config.output_path = none)

/-- The outcome of the fallback unlink-and-copy of _post_process_result:
either both file operations succeeded, or one raised an OSError, in which
case the path holds `left` bytes afterwards — the still-present encoded
file when the unlink failed, nothing when the copy failed after the
unlink. -/
inductive FallbackOutcome where
  | ok
  | err (left : Option Nat)
deriving DecidableEq

/-- compression_engine.py _post_process_result: negligible-gain rename then
fallback check.  Both file operations sit in try/except-OSError blocks in
the source: a failed rename keeps the old output path, and a failed
fallback unlink-and-copy logs and keeps the oversized compressed_size;
rename_ok and fallback carry those outcomes. -/
def post_process_result (config : CompressionConfig) (output_path : FsPath)
    (original_size compressed_size : Nat) (target_format : String)
    (rename_ok : Bool) (fallback : FallbackOutcome) :
    FsPath × Nat :=
  let output_path1 :=
    if should_use_original_name config original_size compressed_size then
      let new_output_path :=
        config.get_output_path config.input_path (some target_format) true
      if new_output_path ≠ output_path ∧ new_output_path ≠ config.input_path then
        if rename_ok then new_output_path else output_path
      else output_path
    else output_path
  if (compressed_size : ℚ) > (original_size : ℚ) * fallback_threshold config then
    match fallback with
    | FallbackOutcome.ok => (output_path1, original_size)
    | FallbackOutcome.err _ => (output_path1, compressed_size)
  else (output_path1, compressed_size)

/-- compression_engine.py _compress_image, line 92-94: the target format is
the configured one, else the extracted one, with UNKNOWN mapped to JPEG. -/
def target_format_for (config : CompressionConfig) (metadata : ImageMetadata) :
    String :=
  let t := config.target_format.getD metadata.basic_info.format
  if t = "UNKNOWN" then "JPEG" else t

/-- The external codec's encode step (processed_img.save): either it wrote
the output file, reporting its byte size, or it raised, leaving behind
whatever bytes it had written so far (none = no file was created). -/
inductive EncodeOutcome where
  | ok (size : Nat)
  | err (msg : String) (leftover : Option Nat)
deriving DecidableEq

/-- The transform stage outputs (_process_image): EXIF-orientation, resize
and color-mode preparation are external pixel-buffer operations; only
their bookkeeping outputs reach the result object. -/
structure TransformOutcome where
  was_resized : Bool
  original_dimensions : Nat × Nat
  final_dimensions : Nat × Nat
deriving DecidableEq

/-- compression_engine.py _compress_image.  An exception from the encode
step propagates to the caller (modelled as Except.error carrying the
message and the bytes the failed encode left at the output path);
rename_ok and fallback are the outcomes of the post-processing file
operations. -/
def compress_image (config : CompressionConfig) (metadata : ImageMetadata)
    (transform : TransformOutcome) (encode : EncodeOutcome)
    (rename_ok : Bool) (fallback : FallbackOutcome) :
    Except (String × Option Nat) CompressionResult :=
  let original_size := metadata.basic_info.file_size
  let output_path := config.get_output_path config.input_path none false
  let target := target_format_for config metadata
  if save_params_skip target config then
    Except.ok (create_skip_result config "JPEG无损模式跳过处理" original_size)
  else
    match encode with
    | EncodeOutcome.err msg leftover => Except.error (msg, leftover)
    | EncodeOutcome.ok compressed_size0 =>
      let pp := post_process_result config output_path original_size
        compressed_size0 target rename_ok fallback
      Except.ok
        { success := true
          error := none
          input_path := config.input_path
          output_path := pp.1
          original_size := original_size
          compressed_size := pp.2
          format_used := target
          quality_used := save_params_quality target config
          was_resized := transform.was_resized
          original_dimensions := some transform.original_dimensions
          final_dimensions := some transform.final_dimensions }

/-- process_image's smart-strategy guard: target_format unset and lossless
quality mode. -/
def auto_mode (config : CompressionConfig) : Bool :=
  decide (config.target_format = none) &&
    decide (config.quality_mode = QualityMode.lossless)

/-- The configuration _compress_image actually runs with: in auto mode the
strategy decision has been applied, otherwise the user's config unchanged. -/
def working_config (config : CompressionConfig) (metadata : ImageMetadata) :
    CompressionConfig :=
  if auto_mode config then
    apply_strategy_decision config (select_optimal default_strategy metadata (some config))
  else config

/-- compression_engine.py process_image.  input_exists models the
config.input_path.exists() pre-flight check; metadata is what the
extractor returned for the input file. -/
def process_image (config : CompressionConfig) (input_exists : Bool)
    (metadata : ImageMetadata) (transform : TransformOutcome)
    (encode : EncodeOutcome) (rename_ok : Bool) (fallback : FallbackOutcome) :
    CompressionResult :=
  if input_exists = false then
    create_error_result config.input_path
      "文件验证: 输入文件不存在" none 0
  else if auto_mode config &&
      (select_optimal default_strategy metadata (some config)).skip_compression then
    create_skip_result config
      (select_optimal default_strategy metadata (some config)).reason
      metadata.basic_info.file_size
  else
    match compress_image (working_config config metadata) metadata transform encode
        rename_ok fallback with
    | Except.ok r => r
    | Except.error me =>
      create_error_result config.input_path ("图像压缩引擎: " ++ me.1) none
        metadata.basic_info.file_size

/-- process_image together with the file-system state at the location the
engine wrote (or tried to write): the second component is the byte count
found there after the call — the final output location on success or skip,
and the encode destination (the working config's output path) when the
encode step raised — given the bytes found there before the call.  When
the no-growth fallback was triggered but its unlink-and-copy failed, the
content is whatever that failed operation left. -/
def process_image_fs (config : CompressionConfig) (fs_at_dest_before : Option Nat)
    (input_exists : Bool) (metadata : ImageMetadata)
    (transform : TransformOutcome) (encode : EncodeOutcome)
    (rename_ok : Bool) (fallback : FallbackOutcome) :
    CompressionResult × Option Nat :=
  let r := process_image config input_exists metadata transform encode
    rename_ok fallback
  if input_exists = false then (r, fs_at_dest_before)
  else if auto_mode config &&
      (select_optimal default_strategy metadata (some config)).skip_compression then
    (r, some metadata.basic_info.file_size)
  else if save_params_skip (target_format_for (working_config config metadata) metadata)
      (working_config config metadata) then
    (r, some metadata.basic_info.file_size)
  else
    match encode with
    | EncodeOutcome.err _ leftover => (r, leftover)
    | EncodeOutcome.ok encoded_size =>
      if (encoded_size : ℚ) > (metadata.basic_info.file_size : ℚ) *
          fallback_threshold (working_config config metadata) then
        match fallback with
        | FallbackOutcome.ok => (r, some metadata.basic_info.file_size)
        | FallbackOutcome.err left => (r, left)
      else (r, some encoded_size)

/-! Concrete inputs used by counterexamples and witnesses. -/

/-- A transform-stage outcome with no resizing, reused by concrete runs. -/
def dummy_transform : TransformOutcome :=
  { was_resized := false, original_dimensions := (1000, 1000),
    final_dimensions := (1000, 1000) }

/-- A basic-info record with the given size, dimensions and format. -/
def sample_basic (sz w h : Nat) (fmt : String) : BasicImageInfo :=
  { file_size := sz, format := fmt, mode := "RGB", width := w, height := h,
    has_transparency := false }

/-- Auto-mode config for a 300 KiB WebP photo: p/photo.webp, no target
format, lossless quality mode. -/
def c1_cfg : CompressionConfig :=
  { input_path := { dir := "p", stem := "photo", ext := ".webp" } }

/-- Metadata of the 300 KiB WebP input (307200 bytes, 1000 by 1000). -/
def c1_meta : ImageMetadata :=
  { basic_info := sample_basic 307200 1000 1000 "WEBP" }

/-- Auto-mode config for a tiny input d/tiny.png. -/
def c2_cfg : CompressionConfig :=
  { input_path := { dir := "d", stem := "tiny", ext := ".png" } }

/-- Metadata of a 3000-byte BMP input, under the 5 KiB skip threshold. -/
def c2_meta : ImageMetadata :=
  { basic_info := sample_basic 3000 100 100 "BMP" }

/-- Lossless-mode config for the JPEG input p/pic.jpg targeting JPEG. -/
def c3_cfg : CompressionConfig :=
  { input_path := { dir := "p", stem := "pic", ext := ".jpg" },
    target_format := some "JPEG" }

/-- Metadata of a 90000-byte JPEG input. -/
def c3_meta : ImageMetadata :=
  { basic_info := sample_basic 90000 300 300 "JPEG" }

/-- A complexity record with component mean 0.1 (category very_low) and
color_diversity 0.3. -/
def c5_comp : ComplexityMetrics :=
  { edge_density := 0, color_diversity := 3/10, texture_complexity := 0,
    compression_difficulty := 0 }

/-- Metadata carrying the very_low complexity record with
color_diversity 0.3. -/
def c5_meta : ImageMetadata :=
  { basic_info := sample_basic 400000 500 500 "BMP", complexity := some c5_comp }

/-- Metadata carrying a complexity record with color_diversity 0.05. -/
def c5_meta_low : ImageMetadata :=
  { basic_info := sample_basic 400000 500 500 "BMP",
    complexity :=
      some { edge_density := 0, color_diversity := 1/20,
             texture_complexity := 0, compression_difficulty := 0 } }

/-- Custom-quality config for d/a.png whose configured output path happens
to be d/a.compressed, the error handler's placeholder for this input. -/
def c6_cfg : CompressionConfig :=
  { input_path := { dir := "d", stem := "a", ext := ".png" },
    output_path := some { dir := "d", stem := "a", ext := ".compressed" },
    quality_mode := QualityMode.custom,
    custom_quality := some 80 }

/-- Metadata of a 200000-byte PNG input. -/
def c6_meta : ImageMetadata :=
  { basic_info := sample_basic 200000 400 400 "PNG" }

/-- Default config for the missing input d/missing.png. -/
def c7_cfg : CompressionConfig :=
  { input_path := { dir := "d", stem := "missing", ext := ".png" } }

/-- Placeholder metadata for the missing-input run (never reached). -/
def c7_meta : ImageMetadata :=
  { basic_info := sample_basic 1 1 1 "PNG" }

/-- Custom-quality config for d/b.png, used for an encode-error failure. -/
def c7_err_cfg : CompressionConfig :=
  { input_path := { dir := "d", stem := "b", ext := ".png" },
    quality_mode := QualityMode.custom,
    custom_quality := some 70 }

/-- Metadata of a 150000-byte PNG input for the encode-error failure. -/
def c7_err_meta : ImageMetadata :=
  { basic_info := sample_basic 150000 300 300 "PNG" }

/-- Auto-mode config for p/photo.webp, used with a strategy decision. -/
def c8_cfg : CompressionConfig :=
  { input_path := { dir := "p", stem := "photo", ext := ".webp" } }

/-- The decision the strategy returns for a 300 KiB WebP input:
lossy WebP at quality 85. -/
def c8_dec : CompressionDecision :=
  { strategy_type := StrategyType.lossy, recommended_quality := some 85,
    recommended_format := some "WEBP", reason := "WebP 高质量压缩" }

/-! Helper lemmas shared by the claim theorems. -/

/-- Every decision produced by the original-format-optimization step has
skip_compression = false. -/
lemma try_original_no_skip (m : ImageMetadata) (d : CompressionDecision)
    (h : try_original_format_optimization m = some d) :
    d.skip_compression = false := by
  unfold try_original_format_optimization at h
  dsimp only at h
  split_ifs at h <;>
    first
      | exact Option.noConfusion h
      | (injection h with h2; subst h2; rfl)

/-- When the skip guard is off, the heuristic matrix never produces a skip
decision. -/
lemma make_decision_no_skip (s : CompressionStrategy) (f : DecisionFactors)
    (m : ImageMetadata) (h : should_skip_compression m = false) :
    (make_decision s f m).skip_compression = false := by
  unfold make_decision
  rw [h]
  simp only [Bool.false_eq_true, if_false]
  rcases f with ⟨lf, hc, htr, ip, isg⟩
  cases htr <;> cases isg <;> cases ip <;> cases lf <;> cases hc <;>
    simp [handle_simple_graphic] <;> split_ifs <;> rfl

/-- The analysis path sets skip_compression exactly when the skip guard
fires. -/
lemma analyze_and_decide_skip_eq (s : CompressionStrategy) (m : ImageMetadata) :
    (analyze_and_decide s m).skip_compression = should_skip_compression m := by
  unfold analyze_and_decide
  by_cases h : should_skip_compression m = true
  · simp [h]
  · have h' : should_skip_compression m = false := by simpa using h
    rw [h']
    simp only [Bool.false_eq_true, if_false]
    rcases htry : try_original_format_optimization m with _ | d
    · dsimp only
      exact make_decision_no_skip s _ m h'
    · dsimp only
      exact try_original_no_skip m d htry

/-- When the fallback unlink-and-copy succeeds, the size recorded after
post-processing is bounded by the fallback threshold unless it equals the
original size. -/
lemma post_process_result_le (config : CompressionConfig) (output_path : FsPath)
    (original_size compressed_size : Nat) (target_format : String)
    (rename_ok : Bool) :
    ((post_process_result config output_path original_size compressed_size
        target_format rename_ok FallbackOutcome.ok).2 : ℚ) ≤
      (original_size : ℚ) * fallback_threshold config ∨
    (post_process_result config output_path original_size compressed_size
        target_format rename_ok FallbackOutcome.ok).2 = original_size := by
  have h2 : (post_process_result config output_path original_size compressed_size
      target_format rename_ok FallbackOutcome.ok).2 =
      if ((compressed_size : ℚ) > (original_size : ℚ) * fallback_threshold config)
      then original_size else compressed_size := by
    unfold post_process_result
    dsimp only
    split_ifs <;> rfl
  rw [h2]
  split_ifs with h
  · right; rfl
  · left
    exact not_lt.mp h

/-! Claim theorems. -/

/-- C1 (amended): for every successful non-skip call of the engine in
which the fallback unlink-and-copy succeeds, the recorded compressed_size
is at most original_size times the fallback threshold of the working
configuration — 1.005 when its custom_quality is unset, 1.02 whenever
custom_quality is set, including qualities the auto strategy selected —
or else equals original_size through the fallback copy.  When that
unlink-and-copy itself raises an OSError the source merely logs and keeps
the oversized size in a success=true result, so the bound holds only for
the FallbackOutcome.ok case stated here. -/
theorem c1_no_growth_amended (config : CompressionConfig)
    (metadata : ImageMetadata) (transform : TransformOutcome)
    (encode_size : Nat) (input_exists : Bool) (rename_ok : Bool)
    (hs : (process_image config input_exists metadata transform
      (EncodeOutcome.ok encode_size) rename_ok FallbackOutcome.ok).success
      = true)
    (hns : (process_image config input_exists metadata transform
      (EncodeOutcome.ok encode_size) rename_ok FallbackOutcome.ok).format_used
      ≠ "SKIPPED") :
    ((process_image config input_exists metadata transform
        (EncodeOutcome.ok encode_size) rename_ok
        FallbackOutcome.ok).compressed_size : ℚ) ≤
      ((process_image config input_exists metadata transform
        (EncodeOutcome.ok encode_size) rename_ok
        FallbackOutcome.ok).original_size : ℚ) *
        fallback_threshold (working_config config metadata) ∨
    (process_image config input_exists metadata transform
        (EncodeOutcome.ok encode_size) rename_ok
        FallbackOutcome.ok).compressed_size =
      (process_image config input_exists metadata transform
        (EncodeOutcome.ok encode_size) rename_ok
        FallbackOutcome.ok).original_size := by
  cases input_exists with
  | false =>
    exact absurd hs (by simp [process_image, create_error_result])
  | true =>
    by_cases hsk : (auto_mode config &&
        (select_optimal default_strategy metadata (some config)).skip_compression)
        = true
    · exact absurd (by simp [process_image, hsk, create_skip_result] :
        (process_image config true metadata transform
          (EncodeOutcome.ok encode_size) rename_ok
          FallbackOutcome.ok).format_used = "SKIPPED") hns
    · have hsk' : (auto_mode config &&
          (select_optimal default_strategy metadata (some config)).skip_compression)
          = false := by simpa using hsk
      by_cases hsp : save_params_skip
          (target_format_for (working_config config metadata) metadata)
          (working_config config metadata) = true
      · exact absurd (by
          simp [process_image, hsk', compress_image, hsp, create_skip_result] :
          (process_image config true metadata transform
            (EncodeOutcome.ok encode_size) rename_ok
            FallbackOutcome.ok).format_used = "SKIPPED") hns
      · have hsp' : save_params_skip
            (target_format_for (working_config config metadata) metadata)
            (working_config config metadata) = false := by simpa using hsp
        have hred : process_image config true metadata transform
            (EncodeOutcome.ok encode_size) rename_ok FallbackOutcome.ok =
            { success := true
              error := none
              input_path := (working_config config metadata).input_path
              output_path := (post_process_result (working_config config metadata)
                ((working_config config metadata).get_output_path
                  (working_config config metadata).input_path none false)
                metadata.basic_info.file_size encode_size
                (target_format_for (working_config config metadata) metadata)
                rename_ok FallbackOutcome.ok).1
              original_size := metadata.basic_info.file_size
              compressed_size := (post_process_result (working_config config metadata)
                ((working_config config metadata).get_output_path
                  (working_config config metadata).input_path none false)
                metadata.basic_info.file_size encode_size
                (target_format_for (working_config config metadata) metadata)
                rename_ok FallbackOutcome.ok).2
              format_used := target_format_for (working_config config metadata) metadata
              quality_used := save_params_quality
                (target_format_for (working_config config metadata) metadata)
                (working_config config metadata)
              was_resized := transform.was_resized
              original_dimensions := some transform.original_dimensions
              final_dimensions := some transform.final_dimensions } := by
          simp [process_image, hsk', compress_image, hsp']
        rw [hred]
        exact post_process_result_le _ _ _ _ _ _

/-- C1 counterexample: a user-side auto run (lossless mode, no target
format) on a 300 KiB WebP input is turned lossy at quality 85 by the
strategy, and an encode of 310000 bytes — 0.91 percent above the original
307200 — is kept: the returned compressed_size exceeds original_size times
1.005 and does not equal original_size, refuting the claim that 1.005
bounds every auto-mode result. -/
theorem c1_auto_threshold_counterexample :
    auto_mode c1_cfg = true ∧
    (process_image c1_cfg true c1_meta dummy_transform
      (EncodeOutcome.ok 310000) true FallbackOutcome.ok).success = true ∧
    (process_image c1_cfg true c1_meta dummy_transform
      (EncodeOutcome.ok 310000) true FallbackOutcome.ok).format_used
      ≠ "SKIPPED" ∧
    ((process_image c1_cfg true c1_meta dummy_transform
        (EncodeOutcome.ok 310000) true FallbackOutcome.ok).compressed_size
        : ℚ) >
      ((process_image c1_cfg true c1_meta dummy_transform
        (EncodeOutcome.ok 310000) true FallbackOutcome.ok).original_size
        : ℚ) * (1005/1000) ∧
    (process_image c1_cfg true c1_meta dummy_transform
        (EncodeOutcome.ok 310000) true FallbackOutcome.ok).compressed_size ≠
      (process_image c1_cfg true c1_meta dummy_transform
        (EncodeOutcome.ok 310000) true FallbackOutcome.ok).original_size := by
  refine ⟨rfl, ?_, ?_, ?_, ?_⟩ <;>
  · simp [process_image, c1_cfg, c1_meta, sample_basic, dummy_transform,
      auto_mode, working_config, select_optimal, analyze_and_decide,
      should_skip_compression, try_original_format_optimization,
      apply_strategy_decision, compress_image, save_params_skip,
      target_format_for, CompressionConfig.get_output_path,
      CompressionConfig.generate_auto_path, CompressionConfig.quality_suffix,
      CompressionConfig.effective_quality, get_jpeg_params, save_params_quality,
      post_process_result, should_use_original_name, fallback_threshold,
      format_extension, create_skip_result, create_error_result,
      default_strategy, make_decision, decision_factors]
    try norm_num
    try simp [save_params_skip, target_format_for, get_jpeg_params,
      CompressionConfig.effective_quality, save_params_quality,
      post_process_result, should_use_original_name, fallback_threshold,
      CompressionConfig.get_output_path, CompressionConfig.generate_auto_path,
      CompressionConfig.quality_suffix, format_extension, create_skip_result]
    try norm_num

/-- C1 witness: the amended bound instantiated on the concrete auto-mode
WebP run with encode size 310000. -/
theorem c1_no_growth_witness :
    ((process_image c1_cfg true c1_meta dummy_transform
        (EncodeOutcome.ok 310000) true FallbackOutcome.ok).compressed_size
        : ℚ) ≤
      ((process_image c1_cfg true c1_meta dummy_transform
        (EncodeOutcome.ok 310000) true FallbackOutcome.ok).original_size
        : ℚ) *
        fallback_threshold (working_config c1_cfg c1_meta) ∨
    (process_image c1_cfg true c1_meta dummy_transform
        (EncodeOutcome.ok 310000) true FallbackOutcome.ok).compressed_size =
      (process_image c1_cfg true c1_meta dummy_transform
        (EncodeOutcome.ok 310000) true FallbackOutcome.ok).original_size := by
  refine c1_no_growth_amended c1_cfg c1_meta dummy_transform 310000 true true
    ?_ ?_ <;>
  · simp [process_image, c1_cfg, c1_meta, sample_basic, dummy_transform,
      auto_mode, working_config, select_optimal, analyze_and_decide,
      should_skip_compression, try_original_format_optimization,
      apply_strategy_decision, compress_image, save_params_skip,
      target_format_for, CompressionConfig.get_output_path,
      CompressionConfig.generate_auto_path, CompressionConfig.quality_suffix,
      CompressionConfig.effective_quality, get_jpeg_params, save_params_quality,
      post_process_result, should_use_original_name, fallback_threshold,
      format_extension, create_skip_result, create_error_result,
      default_strategy, make_decision, decision_factors]
    try norm_num
    try simp [save_params_skip, target_format_for, get_jpeg_params,
      CompressionConfig.effective_quality, save_params_quality,
      post_process_result, should_use_original_name, fallback_threshold,
      CompressionConfig.get_output_path, CompressionConfig.generate_auto_path,
      CompressionConfig.quality_suffix, format_extension, create_skip_result]
    try norm_num

/-- C2 In auto mode (lossless quality mode, no target format) the selected
decision has skip_compression = true exactly when the input is under
5 KiB, or is WEBP or JPEG under 50 KiB, or is PNG under 100 KiB with
fewer than 1.5 bytes per pixel; in particular every input under 5 KiB is
skipped. -/
theorem c2_skip_guard_iff (metadata : ImageMetadata) (config : CompressionConfig)
    (ht : config.target_format = none)
    (hq : config.quality_mode = QualityMode.lossless) :
    ((select_optimal default_strategy metadata (some config)).skip_compression
        = true ↔
      (metadata.basic_info.file_size < 5 * 1024 ∨
       ((metadata.basic_info.format = "WEBP" ∨ metadata.basic_info.format = "JPEG") ∧
         metadata.basic_info.file_size < 50 * 1024) ∨
       (metadata.basic_info.format = "PNG" ∧
         metadata.basic_info.file_size < 100 * 1024 ∧
         (metadata.basic_info.file_size : ℚ) /
           ((metadata.basic_info.width * metadata.basic_info.height : ℕ) : ℚ)
           < 3/2))) := by
  have h1 : (select_optimal default_strategy metadata (some config)).skip_compression
      = should_skip_compression metadata := by
    unfold select_optimal
    dsimp only
    rw [hq]
    rw [if_neg (by simp)]
    exact analyze_and_decide_skip_eq default_strategy metadata
  rw [h1]
  unfold should_skip_compression
  dsimp only
  split_ifs with hA hB hC
  · exact iff_of_true rfl (Or.inl hA)
  · exact iff_of_true rfl (Or.inr (Or.inl hB))
  · rw [decide_eq_true_eq]
    constructor
    · intro hd
      exact Or.inr (Or.inr ⟨hC.1, hC.2, hd⟩)
    · rintro (ha | hb | ⟨_, _, hd⟩)
      · exact absurd ha hA
      · exact absurd hb hB
      · exact hd
  · refine iff_of_false (by simp) ?_
    rintro (ha | hb | ⟨hp, hsz, _⟩)
    · exact hA ha
    · exact hB hb
    · exact hC ⟨hp, hsz⟩

/-- C2 witness: the skip guard applied to a 3000-byte input in auto mode. -/
theorem c2_skip_guard_witness :
    ((select_optimal default_strategy c2_meta (some c2_cfg)).skip_compression
        = true ↔
      (c2_meta.basic_info.file_size < 5 * 1024 ∨
       ((c2_meta.basic_info.format = "WEBP" ∨ c2_meta.basic_info.format = "JPEG") ∧
         c2_meta.basic_info.file_size < 50 * 1024) ∨
       (c2_meta.basic_info.format = "PNG" ∧
         c2_meta.basic_info.file_size < 100 * 1024 ∧
         (c2_meta.basic_info.file_size : ℚ) /
           ((c2_meta.basic_info.width * c2_meta.basic_info.height : ℕ) : ℚ)
           < 3/2))) :=
  c2_skip_guard_iff c2_meta c2_cfg rfl rfl

/-- C3 For a JPEG input file (suffix .jpg or .jpeg) processed in lossless
mode targeting JPEG, the parameter builder signals skip-processing and the
executor returns the skip-and-copy result: success = true,
format_used = SKIPPED and compressed_size equal to original_size. -/
theorem c3_jpeg_lossless_skip (config : CompressionConfig)
    (metadata : ImageMetadata) (transform : TransformOutcome)
    (encode : EncodeOutcome) (rename_ok : Bool) (fallback : FallbackOutcome)
    (hq : config.effective_quality = none)
    (he : lower_string config.input_path.ext = ".jpg" ∨
      lower_string config.input_path.ext = ".jpeg")
    (htgt : target_format_for config metadata = "JPEG") :
    (get_jpeg_params config.effective_quality config).1 =
      JpegSaveParams.skipProcessing ∧
    compress_image config metadata transform encode rename_ok fallback =
      Except.ok (create_skip_result config "JPEG无损模式跳过处理"
        metadata.basic_info.file_size) ∧
    (create_skip_result config "JPEG无损模式跳过处理"
      metadata.basic_info.file_size).success = true ∧
    (create_skip_result config "JPEG无损模式跳过处理"
      metadata.basic_info.file_size).format_used = "SKIPPED" ∧
    (create_skip_result config "JPEG无损模式跳过处理"
        metadata.basic_info.file_size).compressed_size =
      (create_skip_result config "JPEG无损模式跳过处理"
        metadata.basic_info.file_size).original_size := by
  have hskip : (get_jpeg_params config.effective_quality config).1 =
      JpegSaveParams.skipProcessing := by
    rw [hq]
    unfold get_jpeg_params
    dsimp only
    rw [if_pos he]
  have hsp : save_params_skip (target_format_for config metadata) config = true := by
    simp [save_params_skip, htgt, hskip]
  refine ⟨hskip, ?_, rfl, rfl, rfl⟩
  unfold compress_image
  dsimp only
  rw [if_pos (by simpa using hsp)]

/-- C3 witness: the JPEG-lossless skip on the concrete input p/pic.jpg with
target JPEG. -/
theorem c3_jpeg_lossless_skip_witness :
    (get_jpeg_params c3_cfg.effective_quality c3_cfg).1 =
      JpegSaveParams.skipProcessing ∧
    compress_image c3_cfg c3_meta dummy_transform (EncodeOutcome.ok 1)
        true FallbackOutcome.ok =
      Except.ok (create_skip_result c3_cfg "JPEG无损模式跳过处理"
        c3_meta.basic_info.file_size) ∧
    (create_skip_result c3_cfg "JPEG无损模式跳过处理"
      c3_meta.basic_info.file_size).success = true ∧
    (create_skip_result c3_cfg "JPEG无损模式跳过处理"
      c3_meta.basic_info.file_size).format_used = "SKIPPED" ∧
    (create_skip_result c3_cfg "JPEG无损模式跳过处理"
        c3_meta.basic_info.file_size).compressed_size =
      (create_skip_result c3_cfg "JPEG无损模式跳过处理"
        c3_meta.basic_info.file_size).original_size :=
  c3_jpeg_lossless_skip c3_cfg c3_meta dummy_transform (EncodeOutcome.ok 1)
    true FallbackOutcome.ok rfl (Or.inl rfl) rfl

/-- C4 The JPEG builder clamps an explicit quality to the range 1..100 and
then maps 100 to 98, so the effective quality for an explicit quality of
100 is 98 and the effective quality is never 100. -/
theorem c4_jpeg_quality_clamp (config : CompressionConfig) (q : Nat) :
    (get_jpeg_params (some q) config).2 =
      some (if max 1 (min 100 q) = 100 then 98 else max 1 (min 100 q)) ∧
    (get_jpeg_params (some 100) config).2 = some 98 ∧
    (get_jpeg_params (some q) config).2 ≠ some 100 := by
  refine ⟨rfl, rfl, ?_⟩
  have h1 : (get_jpeg_params (some q) config).2 =
      some (if max 1 (min 100 q) = 100 then 98 else max 1 (min 100 q)) := rfl
  rw [h1]
  split_ifs with h
  · simp
  · simp only [ne_eq, Option.some.injEq]
    exact h

/-- C5 (amended): for metadata whose complexity record is present, the
metadata-based classifier returns is_simple_graphic = true exactly when
color_diversity is below 0.1; the comparison against the category string
simple never fires, because the derived overall_complexity only takes the
values very_low, low, medium, high and very_high. -/
theorem c5_simple_graphic_amended (metadata : ImageMetadata)
    (c : ComplexityMetrics) (hc : metadata.complexity = some c) :
    ((analyze_image_from_metadata metadata).is_simple_graphic = true ↔
      c.color_diversity < 1/10) := by
  have hns : c.overall_complexity ≠ "simple" := by
    simp only [ComplexityMetrics.overall_complexity]
    split_ifs <;> decide
  simp only [analyze_image_from_metadata, hc]
  split_ifs with h1 h2
  · exact iff_of_true rfl h1
  · exact iff_of_false (by simp [hns]) h1
  · exact iff_of_false (by simp [hns]) h1

/-- C5 counterexample: a complexity record with color_diversity 0.3 and
the other components 0 has overall_complexity very_low, yet the classifier
reports is_simple_graphic = false. -/
theorem c5_very_low_counterexample :
    c5_comp.overall_complexity = "very_low" ∧
    (analyze_image_from_metadata c5_meta).is_simple_graphic = false := by
  constructor
  · norm_num [c5_comp, ComplexityMetrics.overall_complexity]
  · norm_num [c5_meta, c5_comp, sample_basic, analyze_image_from_metadata,
      ComplexityMetrics.overall_complexity]
    decide

/-- C5 witness: the amended rule applied to a concrete record with
color_diversity 0.05. -/
theorem c5_simple_graphic_witness :
    (analyze_image_from_metadata c5_meta_low).is_simple_graphic = true ↔
      (1/20 : ℚ) < 1/10 :=
  c5_simple_graphic_amended c5_meta_low _ rfl

/-- C6 (amended): when the encode step raises, the call returns a failed
result with a non-null error, but the engine performs no cleanup: the
bytes the failed encode left at the write destination stay there exactly
as the encoder left them, so a partial file can remain. -/
theorem c6_failure_no_cleanup_amended (config : CompressionConfig)
    (metadata : ImageMetadata) (transform : TransformOutcome)
    (fs_before : Option Nat) (msg : String) (leftover : Option Nat)
    (rename_ok : Bool) (fallback : FallbackOutcome)
    (hsk : (auto_mode config &&
      (select_optimal default_strategy metadata (some config)).skip_compression)
      = false)
    (hsp : save_params_skip
      (target_format_for (working_config config metadata) metadata)
      (working_config config metadata) = false) :
    (process_image_fs config fs_before true metadata transform
      (EncodeOutcome.err msg leftover) rename_ok fallback).1.success = false ∧
    (process_image_fs config fs_before true metadata transform
      (EncodeOutcome.err msg leftover) rename_ok fallback).1.error.isSome
      = true ∧
    (process_image_fs config fs_before true metadata transform
      (EncodeOutcome.err msg leftover) rename_ok fallback).2 = leftover := by
  refine ⟨?_, ?_, ?_⟩ <;>
    simp [process_image_fs, process_image, compress_image, hsk, hsp,
      create_error_result]

/-- C6 counterexample: for the config whose explicit output path
d/a.compressed coincides with the error handler's placeholder, an encode
failure that leaves 10 bytes behind yields a failed result whose
output_path holds those 10 bytes even though nothing was there before the
call, refuting the claim that the file-system state at the result's
output_path is unchanged. -/
theorem c6_partial_output_counterexample :
    (process_image_fs c6_cfg none true c6_meta dummy_transform
      (EncodeOutcome.err "disk full" (some 10)) true
      FallbackOutcome.ok).1.success = false ∧
    (process_image_fs c6_cfg none true c6_meta dummy_transform
      (EncodeOutcome.err "disk full" (some 10)) true
      FallbackOutcome.ok).1.error.isSome = true ∧
    (process_image_fs c6_cfg none true c6_meta dummy_transform
        (EncodeOutcome.err "disk full" (some 10)) true
        FallbackOutcome.ok).1.output_path =
      { dir := "d", stem := "a", ext := ".compressed" } ∧
    c6_cfg.output_path = some { dir := "d", stem := "a", ext := ".compressed" } ∧
    (process_image_fs c6_cfg none true c6_meta dummy_transform
      (EncodeOutcome.err "disk full" (some 10)) true
      FallbackOutcome.ok).2 = some 10 := by
  refine ⟨?_, ?_, ?_, rfl, ?_⟩ <;>
    simp [process_image_fs, process_image, compress_image, c6_cfg, c6_meta,
      sample_basic, auto_mode, working_config, target_format_for,
      save_params_skip, get_jpeg_params, CompressionConfig.effective_quality,
      create_error_result, FsPath.with_suffix]

/-- C6 witness: the amended no-cleanup behavior on the concrete
custom-quality PNG run whose encode fails leaving 10 bytes. -/
theorem c6_failure_no_cleanup_witness :
    (process_image_fs c6_cfg none true c6_meta dummy_transform
      (EncodeOutcome.err "disk full" (some 10)) true
      FallbackOutcome.ok).1.success = false ∧
    (process_image_fs c6_cfg none true c6_meta dummy_transform
      (EncodeOutcome.err "disk full" (some 10)) true
      FallbackOutcome.ok).1.error.isSome = true ∧
    (process_image_fs c6_cfg none true c6_meta dummy_transform
      (EncodeOutcome.err "disk full" (some 10)) true
      FallbackOutcome.ok).2 = some 10 :=
  c6_failure_no_cleanup_amended c6_cfg c6_meta dummy_transform none
    "disk full" (some 10) true FallbackOutcome.ok
    (by simp [auto_mode, c6_cfg])
    (by simp [working_config, auto_mode, c6_cfg, c6_meta, sample_basic,
      target_format_for, save_params_skip])

/-- C7 (amended): every failed call — whether the input path does not
exist or the encode step raises — returns success = false with a non-null
error, but its output_path is the error handler's placeholder: the input
path with its extension replaced by .compressed, which in general differs
from the destination the call would have written to.  The hypotheses of
the encode-error part only rule out the two skip short-circuits, on which
no encode runs. -/
theorem c7_failed_output_path_amended (config : CompressionConfig)
    (metadata : ImageMetadata) (transform : TransformOutcome)
    (encode : EncodeOutcome) (rename_ok : Bool) (fallback : FallbackOutcome)
    (msg : String) (leftover : Option Nat)
    (hsk : (auto_mode config &&
      (select_optimal default_strategy metadata (some config)).skip_compression)
      = false)
    (hsp : save_params_skip
      (target_format_for (working_config config metadata) metadata)
      (working_config config metadata) = false) :
    ((process_image config false metadata transform encode rename_ok
        fallback).success = false ∧
     (process_image config false metadata transform encode rename_ok
        fallback).error.isSome = true ∧
     (process_image config false metadata transform encode rename_ok
        fallback).output_path =
       config.input_path.with_suffix ".compressed") ∧
    ((process_image config true metadata transform
        (EncodeOutcome.err msg leftover) rename_ok fallback).success
        = false ∧
     (process_image config true metadata transform
        (EncodeOutcome.err msg leftover) rename_ok fallback).error.isSome
        = true ∧
     (process_image config true metadata transform
        (EncodeOutcome.err msg leftover) rename_ok fallback).output_path =
       config.input_path.with_suffix ".compressed") := by
  refine ⟨⟨rfl, rfl, rfl⟩, ?_, ?_, ?_⟩ <;>
    simp [process_image, compress_image, hsk, hsp, create_error_result]

/-- C7 witness: the amended rule applied to the missing input d/missing.png
and to an encode failure on the custom-quality PNG input d/b.png. -/
theorem c7_failed_output_path_witness :
    ((process_image c7_err_cfg false c7_err_meta dummy_transform
        (EncodeOutcome.ok 0) true FallbackOutcome.ok).success = false ∧
     (process_image c7_err_cfg false c7_err_meta dummy_transform
        (EncodeOutcome.ok 0) true FallbackOutcome.ok).error.isSome = true ∧
     (process_image c7_err_cfg false c7_err_meta dummy_transform
        (EncodeOutcome.ok 0) true FallbackOutcome.ok).output_path =
       c7_err_cfg.input_path.with_suffix ".compressed") ∧
    ((process_image c7_err_cfg true c7_err_meta dummy_transform
        (EncodeOutcome.err "encode failed" (some 7)) true
        FallbackOutcome.ok).success = false ∧
     (process_image c7_err_cfg true c7_err_meta dummy_transform
        (EncodeOutcome.err "encode failed" (some 7)) true
        FallbackOutcome.ok).error.isSome = true ∧
     (process_image c7_err_cfg true c7_err_meta dummy_transform
        (EncodeOutcome.err "encode failed" (some 7)) true
        FallbackOutcome.ok).output_path =
       c7_err_cfg.input_path.with_suffix ".compressed") :=
  c7_failed_output_path_amended c7_err_cfg c7_err_meta dummy_transform
    (EncodeOutcome.ok 0) true FallbackOutcome.ok "encode failed" (some 7)
    (by simp [auto_mode, c7_err_cfg])
    (by simp [working_config, auto_mode, c7_err_cfg, c7_err_meta,
      sample_basic, target_format_for, save_params_skip])

/-- C7 counterexample: for the missing input d/missing.png in lossless
mode with no configured output, the intended destination is
d/missing_compress.png, but the failed result's output_path is
d/missing.compressed. -/
theorem c7_failed_output_path_counterexample :
    (process_image c7_cfg false c7_meta dummy_transform
      (EncodeOutcome.ok 0) true FallbackOutcome.ok).success = false ∧
    (process_image c7_cfg false c7_meta dummy_transform
      (EncodeOutcome.ok 0) true FallbackOutcome.ok).error.isSome = true ∧
    (process_image c7_cfg false c7_meta dummy_transform
        (EncodeOutcome.ok 0) true FallbackOutcome.ok).output_path =
      { dir := "d", stem := "missing", ext := ".compressed" } ∧
    c7_cfg.get_output_path c7_cfg.input_path none false =
      { dir := "d", stem := "missing_compress", ext := ".png" } ∧
    (process_image c7_cfg false c7_meta dummy_transform
        (EncodeOutcome.ok 0) true FallbackOutcome.ok).output_path ≠
      c7_cfg.get_output_path c7_cfg.input_path none false := by
  refine ⟨rfl, rfl, rfl, rfl, by decide⟩

/-- C8 Whenever the strategy decision carries a recommended quality, the
executor rewrites the working config to custom mode with that quality; as
a consequence the post-processing fallback threshold for the call is 1.02
and the negligible-gain rename condition, which requires lossless mode, is
always false. -/
theorem c8_auto_custom_rewrite (config : CompressionConfig)
    (decision : CompressionDecision) (q : Nat)
    (hq : decision.recommended_quality = some q) :
    (apply_strategy_decision config decision).quality_mode = QualityMode.custom ∧
    (apply_strategy_decision config decision).custom_quality = some q ∧
    fallback_threshold (apply_strategy_decision config decision) = 102/100 ∧
    ∀ original_size compressed_size : Nat,
      should_use_original_name (apply_strategy_decision config decision)
        original_size compressed_size = false := by
  cases hf : decision.recommended_format <;>
    refine ⟨?_, ?_, ?_, ?_⟩ <;>
      simp [apply_strategy_decision, hq, hf, fallback_threshold,
        should_use_original_name]

/-- C8 witness: the rewrite applied to the lossy-WebP-at-85 decision,
with the rename condition instantiated at sizes 1000 and 900. -/
theorem c8_auto_custom_rewrite_witness :
    (apply_strategy_decision c8_cfg c8_dec).quality_mode = QualityMode.custom ∧
    (apply_strategy_decision c8_cfg c8_dec).custom_quality = some 85 ∧
    fallback_threshold (apply_strategy_decision c8_cfg c8_dec) = 102/100 ∧
    should_use_original_name (apply_strategy_decision c8_cfg c8_dec)
      1000 900 = false := by
  obtain ⟨a, b, c, d⟩ := c8_auto_custom_rewrite c8_cfg c8_dec 85 rfl
  exact ⟨a, b, c, d 1000 900⟩

/-- C9 Every skip result carries success = true, format_used = SKIPPED,
compressed_size equal to original_size and a non-null error string holding
the skip reason, so BaseResult.is_successful returns false on it. -/
theorem c9_skip_result_fields (config : CompressionConfig) (reason : String)
    (input_size : Nat) :
    (create_skip_result config reason input_size).success = true ∧
    (create_skip_result config reason input_size).format_used = "SKIPPED" ∧
    (create_skip_result config reason input_size).compressed_size =
      (create_skip_result config reason input_size).original_size ∧
    (create_skip_result config reason input_size).error =
      some ("跳过压缩: " ++ reason) ∧
    (create_skip_result config reason input_size).is_successful = false :=
  ⟨rfl, rfl, rfl, rfl, rfl⟩

/-- C10 When no target format is configured and the extractor reported
format UNKNOWN, the executor selects JPEG as the encode target. -/
theorem c10_unknown_format_jpeg (config : CompressionConfig)
    (metadata : ImageMetadata)
    (ht : config.target_format = none)
    (hf : metadata.basic_info.format = "UNKNOWN") :
    target_format_for config metadata = "JPEG" := by
  simp [target_format_for, ht, hf]

/-- C10 witness: a concrete config without target format and concrete
UNKNOWN-format metadata select JPEG. -/
theorem c10_unknown_format_jpeg_witness :
    target_format_for
      { input_path := { dir := "d", stem := "x", ext := ".bin" } }
      { basic_info := sample_basic 9000 10 10 "UNKNOWN" } = "JPEG" :=
  c10_unknown_format_jpeg _ _ rfl rfl
